import Mathlib

/-!
Verification of the CodeRecall quiz application (src/main.py, src/settings.py).

The stateful TUI code is embedded as pure functions over explicit state:
network calls, JSON parsing by the `json`/`pydantic` libraries, and thread
scheduling are modelled by passing their results in as values (an
`Except`/`Option` for a call that can raise, a `Nat → Bool` oracle for the
sequence of reachability probes).  Strings are Lean `String`s; Python's
`str.upper`/`str.strip` are modelled over `String.data` with their ASCII
behaviour, which is all the application exercises.
-/

namespace CodeRecall

/-- A parsed JSON value, as produced by `json.loads` / pydantic's JSON
parser.  Numbers are modelled as integers (the application never handles
fractional JSON numbers).  An object is its association list of fields; a
parsed Python `dict` has pairwise-distinct keys and lookup takes the first
match. -/
inductive Json where
  | null
  | bool (b : Bool)
  | num (n : Int)
  | str (s : String)
  | arr (elems : List Json)
  | obj (fields : List (String × Json))

/-- Field access on a parsed JSON object (`dict.get` / pydantic field
extraction): first binding of the key, if any. -/
def lookupField : List (String × Json) → String → Option Json
  | [], _ => none
  | (k, v) :: rest, name => if k = name then some v else lookupField rest name

/-- `class EvaluationResponse(BaseModel)` in src/main.py lines 32-38:
three required `str` fields. -/
structure EvaluationResponse where
  result : String
  explanation : String
  answer : String

/-- Pydantic validation of one required `str` field: the field must be
present and must be a JSON string (pydantic v2 does not coerce other JSON
types to `str`).  No emptiness or enumeration constraint is declared in the
source model. -/
def validateField (fields : List (String × Json)) (name : String) : Except String String :=
  match lookupField fields name with
  | some (Json.str s) => Except.ok s
  | some _ => Except.error (name ++ ": Input should be a valid string")
  | none => Except.error (name ++ ": Field required")

/-- `EvaluationResponse` validation of a parsed JSON value: the top level
must be an object and each of the three declared fields must validate.
Pydantic reports all field errors at once; this embedding short-circuits on
the first, which does not change when validation succeeds nor the value it
produces. Extra fields are ignored (pydantic default). -/
def EvaluationResponse.validate (j : Json) : Except String EvaluationResponse :=
  match j with
  | Json.obj fields =>
      match validateField fields "result" with
      | Except.error e => Except.error e
      | Except.ok r =>
        match validateField fields "explanation" with
        | Except.error e => Except.error e
        | Except.ok ex =>
          match validateField fields "answer" with
          | Except.error e => Except.error e
          | Except.ok a => Except.ok ⟨r, ex, a⟩
  | _ => Except.error "Input should be a valid dictionary"

/-- `EvaluationResponse.model_validate_json` on raw text: the text either
fails to parse (`none`) — a validation failure — or parses to a JSON value
that is then validated against the model. -/
def EvaluationResponse.model_validate_json (parsed : Option Json) : Except String EvaluationResponse :=
  match parsed with
  | none => Except.error "Invalid JSON"
  | some j => EvaluationResponse.validate j

/-- Python's `str.upper()` (ASCII range, which is all the application
compares: `evaluation.result.upper() == "PASS"`). -/
def pyUpper (s : String) : String :=
  ⟨s.data.map Char.toUpper⟩

/-- The pure content of `show_feedback` (src/main.py lines 500-517): the
status label text, the CSS class put on it, and the two rendered bodies. -/
structure FeedbackView where
  statusText : String
  statusClass : String
  explanationText : String
  answerText : String

/-- `show_feedback`: the status label shows `evaluation.result` verbatim and
is styled `"pass"` exactly when `evaluation.result.upper() == "PASS"`, else
`"fail"`; explanation and answer are rendered as given. -/
def show_feedback (evaluation : EvaluationResponse) : FeedbackView :=
  { statusText := evaluation.result
    statusClass := if pyUpper evaluation.result = "PASS" then "pass" else "fail"
    explanationText := evaluation.explanation
    answerText := evaluation.answer }

/-- The two providers (`Literal["openai", "ollama"]`). -/
inductive Provider where
  | openai
  | ollama
deriving DecidableEq, Repr

/-- The `Settings` model of src/settings.py (the fields the validator and
the claims touch). -/
structure Settings where
  MODEL_NAME : String
  OPENAI_API_KEY : String
  OPENAI_MODEL_NAME : String
  DEFAULT_PROVIDER : Provider

/-- The message raised by `validate_openai_api_key`. -/
def openaiKeyErrorMsg : String :=
  "OPENAI_API_KEY must be set when DEFAULT_PROVIDER is 'openai'. Set it in your .env file or switch to DEFAULT_PROVIDER='ollama'."

/-- `validate_openai_api_key` (src/settings.py lines 41-49): with provider
`openai` and a falsy (empty) `OPENAI_API_KEY`, raise; otherwise return the
settings unchanged. -/
def validate_openai_api_key (s : Settings) : Except String Settings :=
  if s.DEFAULT_PROVIDER = Provider.openai ∧ s.OPENAI_API_KEY = "" then
    Except.error openaiKeyErrorMsg
  else
    Except.ok s

/-- Python's `needle in hay` on strings, over character lists:
does `hay` start with `needle`? -/
def startsWith : List Char → List Char → Bool
  | [], _ => true
  | _ :: _, [] => false
  | a :: as, b :: bs => a = b && startsWith as bs

/-- Python's `needle in hay` on strings, over character lists: does
`needle` occur contiguously in `hay`? -/
def hasSubstr (needle : List Char) : List Char → Bool
  | [] => startsWith needle []
  | b :: bs => startsWith needle (b :: bs) || hasSubstr needle bs

/-- The model-presence test of src/main.py line 119 and line 335:
`any(settings.MODEL_NAME in name for name in model_names)`. -/
def model_present (modelName : String) (installed : List String) : Bool :=
  installed.any fun name => hasSubstr modelName.data name.data

/-- Outcome of the service stage of `check_ollama` (src/main.py
lines 82-110). -/
inductive ServiceOutcome where
  | serviceUp
  | failed (msg : String)
deriving DecidableEq, Repr

/-- Service-stage outcome together with how many reachability polls the
`for i in range(10)` loop performed (each iteration sleeps one time unit,
then polls once). -/
structure ProbeResult where
  outcome : ServiceOutcome
  polls : Nat
deriving DecidableEq, Repr

/-- Message of the `else` branch of the polling loop (src/main.py
line 105). -/
def manualStartMsg : String :=
  "Could not start Ollama. Please run 'ollama serve' manually."

/-- Message of the `FileNotFoundError` branch (src/main.py line 109). -/
def installMsg : String :=
  "Ollama executable not found. Please install Ollama."

/-- The `for i in range(10)` polling loop of src/main.py lines 95-106:
`done` polls already performed, `fuel` iterations remaining, `reachable i`
the result of the poll in iteration `i` (`ollama.list()` succeeding).
Falling off the loop takes the `for`-`else` branch. -/
def pollLoop (reachable : Nat → Bool) : Nat → Nat → ProbeResult
  | done, 0 => ⟨ServiceOutcome.failed manualStartMsg, done⟩
  | done, fuel + 1 =>
      if reachable done then ⟨ServiceOutcome.serviceUp, done + 1⟩
      else pollLoop reachable (done + 1) fuel

/-- The service stage of `check_ollama` after the initial `ollama.list()`
raised: launch `ollama serve` (`launchOk = false` models `Popen` raising
`FileNotFoundError` because the executable is missing), then poll. -/
def startingService (launchOk : Bool) (reachable : Nat → Bool) : ProbeResult :=
  if launchOk then pollLoop reachable 0 10
  else ⟨ServiceOutcome.failed installMsg, 0⟩

/-- The full service stage of `check_ollama` (src/main.py lines 82-110):
if the initial reachability call succeeds the service is up with no
polling; otherwise the launch-and-poll path runs. -/
def check_ollama_service (initiallyUp launchOk : Bool) (reachable : Nat → Bool) : ProbeResult :=
  if initiallyUp then ⟨ServiceOutcome.serviceUp, 0⟩
  else startingService launchOk reachable

/-- Outcome of the model stage of `check_ollama` (src/main.py
lines 112-129). -/
inductive CheckResult where
  | ready
  | failed (msg : String)
deriving DecidableEq, Repr

/-- The model stage of `check_ollama`: list installed models (an
`Except` for the call raising), skip the pull when the configured name is
a substring of an installed name, otherwise pull (`pullResult` models
`ollama.pull` completing or raising). -/
def model_stage (modelName : String) (listResult : Except String (List String))
    (pullResult : Except String Unit) : CheckResult :=
  match listResult with
  | Except.error e => CheckResult.failed ("Error checking/pulling model: " ++ e)
  | Except.ok names =>
      if model_present modelName names then CheckResult.ready
      else
        match pullResult with
        | Except.ok _ => CheckResult.ready
        | Except.error e => CheckResult.failed ("Error checking/pulling model: " ++ e)

/-- All of `check_ollama`: the service stage, then — only when the service
stage succeeded — the model stage. Returns the final result and the number
of reachability polls performed. -/
def check_ollama (initiallyUp launchOk : Bool) (reachable : Nat → Bool)
    (modelName : String) (listResult : Except String (List String))
    (pullResult : Except String Unit) : CheckResult × Nat :=
  let svc := check_ollama_service initiallyUp launchOk reachable
  match svc.outcome with
  | ServiceOutcome.failed m => (CheckResult.failed m, svc.polls)
  | ServiceOutcome.serviceUp => (model_stage modelName listResult pullResult, svc.polls)

/-- The model-stage result determined by the pull alone (src/main.py
lines 120-127): a completed pull falls through to returning `True`, a
raising pull is caught and fails the check. -/
def pullOutcome : Except String Unit → CheckResult
  | Except.ok _ => CheckResult.ready
  | Except.error e => CheckResult.failed ("Error checking/pulling model: " ++ e)

/-- A role-tagged chat message (`{"role": ..., "content": ...}`). -/
structure ChatMessage where
  role : String
  content : String
deriving DecidableEq, Repr

/-- The `response_format` argument of `llm_chat`: `None`, the string
`"json"`, or a JSON-schema dict. -/
inductive ResponseFormat where
  | jsonMode
  | schema (shape : Json)

/-- `llm_chat` (src/main.py lines 356-361): route the request to the
provider client selected by `current_provider`, forwarding messages and
format directive unchanged and returning the chosen client's raw text.
The two clients are passed in as functions (they perform network I/O in
the source). -/
def llm_chat (current_provider : Provider)
    (openaiChat ollamaChat : List ChatMessage → Option ResponseFormat → String)
    (messages : List ChatMessage) (response_format : Option ResponseFormat) : String :=
  if current_provider = Provider.openai then openaiChat messages response_format
  else ollamaChat messages response_format

/-- The provider-related session state of `CodeRecallApp`
(src/main.py lines 260-261). -/
structure AppState where
  current_provider : Provider
  ollama_verified : Bool
deriving DecidableEq, Repr

/-- `on_mount` (src/main.py lines 288-293): set the provider from
settings and mark Ollama verified exactly when it is the default — before
any startup check has run. -/
def on_mount (defaultProvider : Provider) : AppState :=
  { current_provider := defaultProvider
    ollama_verified := defaultProvider = Provider.ollama }

/-- What a single press of the provider toggle did. -/
inductive ToggleAction where
  | switchedToOllamaDirect
  | ranVerification
  | switchedToOpenai
deriving DecidableEq, Repr

/-- `action_toggle_provider` (src/main.py lines 311-325): from `openai`,
switch directly to `ollama` when `ollama_verified` is already set,
otherwise start the background readiness re-check
(`verify_and_switch_to_ollama`); from `ollama`, switch to `openai`
unconditionally. -/
def action_toggle_provider (s : AppState) : AppState × ToggleAction :=
  match s.current_provider with
  | Provider.openai =>
      if s.ollama_verified then
        ({ s with current_provider := Provider.ollama }, ToggleAction.switchedToOllamaDirect)
      else
        (s, ToggleAction.ranVerification)
  | Provider.ollama =>
      ({ s with current_provider := Provider.openai }, ToggleAction.switchedToOpenai)

/-- A session event touching the provider state: a toggle press, or the
background verification (`verify_and_switch_to_ollama`, src/main.py
lines 327-349) completing with success or failure. -/
inductive SessionEvent where
  | toggle
  | verifySucceeded
  | verifyFailed
deriving DecidableEq, Repr

/-- One session step on the provider state. A successful verification
sets `ollama_verified = True` and switches to `ollama`; a failed one only
notifies and leaves state unchanged. -/
def sessionStep (s : AppState) : SessionEvent → AppState
  | SessionEvent.toggle => (action_toggle_provider s).1
  | SessionEvent.verifySucceeded =>
      { current_provider := Provider.ollama, ollama_verified := true }
  | SessionEvent.verifyFailed => s

/-- Run a session: fold the events over the state. -/
def runSession (s : AppState) (events : List SessionEvent) : AppState :=
  events.foldl sessionStep s

/-- Python's `str.isspace` characters in the ASCII range (what
`str.strip()` with no argument removes; the answer box produces text, so
the non-ASCII Unicode spaces Python also strips are modelled by the same
predicate extended pointwise and do not affect the claims below). -/
def isPyWhitespace (c : Char) : Bool :=
  c = ' ' || c = '\t' || c = '\n' || c = '\x0d' || c = '\x0b' || c = '\x0c'

/-- Python's `str.strip()`: drop whitespace from both ends. -/
def pyStrip (s : String) : String :=
  ⟨((s.data.dropWhile isPyWhitespace).reverse.dropWhile isPyWhitespace).reverse⟩

/-- The UI/session state `action_submit_answer` reads or writes
(src/main.py lines 450-464): the submit button's hidden class, the main
status label, the answer box text, and the current question. -/
structure SubmitUI where
  btnSubmitHidden : Bool
  mainStatusHidden : Bool
  mainStatusText : String
  answerText : String
  current_question : String
deriving DecidableEq, Repr

/-- `action_submit_answer` (src/main.py lines 450-464): return unchanged
when the submit button is hidden or the stripped answer is empty
(dispatching nothing, `none`); otherwise hide the submit button, show the
"Evaluating answer..." status, and dispatch the evaluation request with
the raw answer text (`some`). -/
def action_submit_answer (s : SubmitUI) : SubmitUI × Option String :=
  if s.btnSubmitHidden then (s, none)
  else if pyStrip s.answerText = "" then (s, none)
  else
    ({ s with
        btnSubmitHidden := true
        mainStatusHidden := false
        mainStatusText := "Evaluating answer..." },
      some s.answerText)

/-- What `generate_question` leaves on screen: either the success path
(`show_question` with the value installed as `current_question`) or the
`except` path writing an error string into the question box. -/
inductive GenOutcome where
  | questionShown (question : Json)
  | errorShown (text : String)

/-- Python type name of a parsed JSON value, for the `AttributeError`
message `data.get` raises on a non-dict. -/
def pyTypeName : Json → String
  | Json.null => "NoneType"
  | Json.bool _ => "bool"
  | Json.num _ => "int"
  | Json.str _ => "str"
  | Json.arr _ => "list"
  | Json.obj _ => "dict"

/-- The response handling of `generate_question` (src/main.py
lines 413-435).  `parseResult` is the outcome of `json.loads` on the
backend text (`Except.error e` models it raising with message `e`).  A
parse failure, or `data.get` raising on a non-dict value, is caught by the
`except` and writes `f"Error: {e}"` into the question box.  A parsed dict
takes the success path: `current_question = data.get("question", "Failed
to parse question.")`, then `show_question` runs. -/
def generate_question (parseResult : Except String Json) : GenOutcome :=
  match parseResult with
  | Except.error e => GenOutcome.errorShown ("Error: " ++ e)
  | Except.ok (Json.obj fields) =>
      GenOutcome.questionShown
        (match lookupField fields "question" with
          | some v => v
          | none => Json.str "Failed to parse question.")
  | Except.ok j =>
      GenOutcome.errorShown
        ("Error: '" ++ pyTypeName j ++ "' object has no attribute 'get'")

/-- Is the outcome the error path (the question box holds an error, the
interaction area is never revealed)?  `questionShown` is the usable-
question path: `show_question` reveals the interaction area and focuses
the answer box. -/
def GenOutcome.isErrorPath : GenOutcome → Bool
  | GenOutcome.questionShown _ => false
  | GenOutcome.errorShown _ => true

/-! ## Helper lemmas -/

/-- `startsWith needle hay` holds exactly when `hay` extends `needle`. -/
theorem startsWith_iff (n : List Char) : ∀ h : List Char, startsWith n h = true ↔ ∃ t, h = n ++ t := by
  induction n with
  | nil =>
      intro h
      simp [startsWith]
  | cons a as ih =>
      intro h
      cases h with
      | nil =>
          simp [startsWith]
      | cons b bs =>
          simp only [startsWith, Bool.and_eq_true, decide_eq_true_eq]
          constructor
          · rintro ⟨hab, hst⟩
            obtain ⟨t, ht⟩ := (ih bs).1 hst
            exact ⟨t, by rw [hab, ht]; exact (List.cons_append b as t).symm⟩
          · rintro ⟨t, ht⟩
            injection ht with h1 h2
            exact ⟨h1.symm, (ih bs).2 ⟨t, h2⟩⟩

/-- `hasSubstr needle hay` is Python's `needle in hay`: a contiguous
occurrence. -/
theorem hasSubstr_iff (n : List Char) : ∀ h : List Char, hasSubstr n h = true ↔ ∃ pre post, h = pre ++ n ++ post := by
  intro h
  induction h with
  | nil =>
      rw [show hasSubstr n [] = startsWith n [] from rfl, startsWith_iff]
      constructor
      · rintro ⟨t, ht⟩
        exact ⟨[], t, ht⟩
      · rintro ⟨pre, post, hp⟩
        obtain ⟨hpn, hpost⟩ := List.append_eq_nil.mp hp.symm
        obtain ⟨hpre, hn⟩ := List.append_eq_nil.mp hpn
        exact ⟨[], by simp [hn]⟩
  | cons b bs ih =>
      rw [show hasSubstr n (b :: bs) = (startsWith n (b :: bs) || hasSubstr n bs) from rfl,
        Bool.or_eq_true, startsWith_iff, ih]
      constructor
      · rintro (⟨t, ht⟩ | ⟨pre, post, hp⟩)
        · exact ⟨[], t, ht⟩
        · refine ⟨b :: pre, post, ?_⟩
          rw [hp]
          rfl
      · rintro ⟨pre, post, hp⟩
        cases pre with
        | nil => exact Or.inl ⟨post, by simpa using hp⟩
        | cons p ps =>
            injection hp with h1 h2
            exact Or.inr ⟨ps, post, h2⟩

/-- One required field validates to `Except.ok` exactly when it is present
as a JSON string. -/
theorem validateField_ok_iff (fields : List (String × Json)) (name s : String) :
    validateField fields name = Except.ok s ↔ lookupField fields name = some (Json.str s) := by
  unfold validateField
  cases h : lookupField fields name with
  | none => simp
  | some v => cases v <;> simp

/-- `EvaluationResponse.validate` succeeds exactly when the three declared
fields are present as JSON strings, and then returns them verbatim. -/
theorem validate_ok_iff (fields : List (String × Json)) (r : EvaluationResponse) :
    EvaluationResponse.validate (Json.obj fields) = Except.ok r ↔
      lookupField fields "result" = some (Json.str r.result) ∧
      lookupField fields "explanation" = some (Json.str r.explanation) ∧
      lookupField fields "answer" = some (Json.str r.answer) := by
  obtain ⟨r1, r2, r3⟩ := r
  rw [show EvaluationResponse.validate (Json.obj fields) =
      (match validateField fields "result" with
        | Except.error e => Except.error e
        | Except.ok a =>
          match validateField fields "explanation" with
          | Except.error e => Except.error e
          | Except.ok b =>
            match validateField fields "answer" with
            | Except.error e => Except.error e
            | Except.ok c => Except.ok ⟨a, b, c⟩) from rfl]
  cases h1 : validateField fields "result" with
  | error e1 =>
      simp only []
      constructor
      · intro h; cases h
      · rintro ⟨hr, _, _⟩
        rw [← validateField_ok_iff] at hr
        rw [h1] at hr; cases hr
  | ok a =>
      cases h2 : validateField fields "explanation" with
      | error e2 =>
          simp only []
          constructor
          · intro h; cases h
          · rintro ⟨_, he, _⟩
            rw [← validateField_ok_iff] at he
            rw [h2] at he; cases he
      | ok b =>
          cases h3 : validateField fields "answer" with
          | error e3 =>
              simp only []
              constructor
              · intro h; cases h
              · rintro ⟨_, _, ha⟩
                rw [← validateField_ok_iff] at ha
                rw [h3] at ha; cases ha
          | ok c =>
              simp only [Except.ok.injEq, EvaluationResponse.mk.injEq]
              rw [← validateField_ok_iff fields "result" r1,
                ← validateField_ok_iff fields "explanation" r2,
                ← validateField_ok_iff fields "answer" r3, h1, h2, h3]
              simp only [Except.ok.injEq]

/-- If the first successful poll is iteration `done + k` (counting from
the `done` polls already performed), the loop stops there with
`serviceUp`, having polled `done + k + 1` times in total. -/
theorem pollLoop_first_success (reachable : Nat → Bool) :
    ∀ (k fuel done : Nat), k < fuel →
      (∀ j, j < k → reachable (done + j) = false) → reachable (done + k) = true →
      pollLoop reachable done fuel = ⟨ServiceOutcome.serviceUp, done + k + 1⟩ := by
  intro k
  induction k with
  | zero =>
      intro fuel done hk hlt hr
      cases fuel with
      | zero => exact absurd hk (by omega)
      | succ f =>
          rw [Nat.add_zero] at hr
          simp [pollLoop, hr]
  | succ k ih =>
      intro fuel done hk hlt hr
      cases fuel with
      | zero => exact absurd hk (by omega)
      | succ f =>
          have h0 : reachable done = false := by
            have := hlt 0 (by omega)
            simpa using this
          have hlt2 : ∀ j, j < k → reachable (done + 1 + j) = false := by
            intro j hj
            have := hlt (j + 1) (by omega)
            rwa [show done + (j + 1) = done + 1 + j from by omega] at this
          have hr2 : reachable (done + 1 + k) = true := by
            rwa [show done + (k + 1) = done + 1 + k from by omega] at hr
          rw [show done + (k + 1) + 1 = done + 1 + k + 1 from by omega]
          simp only [pollLoop, h0]
          simpa using ih f (done + 1) (by omega) hlt2 hr2

/-- If every poll in the remaining budget fails, the loop exhausts it and
takes the `for`-`else` branch with the manual-start message, having
polled `fuel` more times. -/
theorem pollLoop_all_fail (reachable : Nat → Bool) :
    ∀ (fuel done : Nat), (∀ j, j < fuel → reachable (done + j) = false) →
      pollLoop reachable done fuel = ⟨ServiceOutcome.failed manualStartMsg, done + fuel⟩ := by
  intro fuel
  induction fuel with
  | zero => intro done _; simp [pollLoop]
  | succ f ih =>
      intro done h
      have h0 : reachable done = false := by
        have := h 0 (by omega)
        simpa using this
      have h2 : ∀ j, j < f → reachable (done + 1 + j) = false := by
        intro j hj
        have := h (j + 1) (by omega)
        rwa [show done + (j + 1) = done + 1 + j from by omega] at this
      rw [show done + (f + 1) = done + 1 + f from by omega]
      simp only [pollLoop, h0]
      simpa using ih (done + 1) h2

/-- A toggle press never changes `ollama_verified` (only the background
verification callback writes it). -/
theorem toggle_preserves_verified (s : AppState) :
    ((action_toggle_provider s).1).ollama_verified = s.ollama_verified := by
  rcases s with ⟨p, v⟩
  cases p <;> cases v <;> simp [action_toggle_provider]

/-- `ollama_verified`, once set, stays set across any sequence of session
events. -/
theorem runSession_preserves_verified :
    ∀ (events : List SessionEvent) (s : AppState), s.ollama_verified = true →
      (runSession s events).ollama_verified = true := by
  intro events
  induction events with
  | nil => intro s h; exact h
  | cons e rest ih =>
      intro s h
      rw [show runSession s (e :: rest) = runSession (sessionStep s e) rest from rfl]
      apply ih
      cases e with
      | toggle => rw [show sessionStep s SessionEvent.toggle = (action_toggle_provider s).1 from rfl, toggle_preserves_verified]; exact h
      | verifySucceeded => rfl
      | verifyFailed => exact h

/-! ## Claims -/

/-- C1, counterexample: `EvaluationResponse` validation accepts a verdict
whose `result` is `"MAYBE"` — neither `PASS` nor `FAIL` — so "any other
result value is a validation failure" is false on the code: the `result`
field is declared as a plain `str` with no enumeration constraint. -/
theorem claim_C1_counterexample :
    EvaluationResponse.model_validate_json
        (some (Json.obj [("result", Json.str "MAYBE"),
          ("explanation", Json.str "not sure"), ("answer", Json.str "42")])) =
      Except.ok ⟨"MAYBE", "not sure", "42"⟩ ∧
    "MAYBE" ≠ "PASS" ∧ "MAYBE" ≠ "FAIL" ∧ pyUpper "MAYBE" ≠ "PASS" :=
  ⟨rfl, by decide, by decide, by decide⟩

/-- C1, amended: validation places no constraint on the `result` value —
any JSON string validates and is returned verbatim.  Interpretation
happens only at display: `show_feedback` styles the status label `"pass"`
exactly when `result.upper() == "PASS"` (case-insensitive) and `"fail"`
otherwise, while the displayed status text is the raw, unnormalized
value. -/
theorem claim_C1_amended :
    ∀ (s e a : String) (rest : List (String × Json)),
      EvaluationResponse.validate
          (Json.obj ([("result", Json.str s), ("explanation", Json.str e),
            ("answer", Json.str a)] ++ rest)) = Except.ok ⟨s, e, a⟩ ∧
      (show_feedback ⟨s, e, a⟩).statusText = s ∧
      ((show_feedback ⟨s, e, a⟩).statusClass = "pass" ↔ pyUpper s = "PASS") ∧
      ((show_feedback ⟨s, e, a⟩).statusClass = "pass" ∨
        (show_feedback ⟨s, e, a⟩).statusClass = "fail") := by
  intro s e a rest
  refine ⟨?_, rfl, ?_, ?_⟩
  · rw [validate_ok_iff]
    refine ⟨?_, ?_, ?_⟩ <;> rfl
  · rw [show (show_feedback ⟨s, e, a⟩).statusClass =
        (if pyUpper s = "PASS" then "pass" else "fail") from rfl]
    by_cases h : pyUpper s = "PASS"
    · simp [h]
    · simp only [h, if_false]
      constructor
      · intro hf; exact absurd hf (by decide)
      · intro hp; exact hp.elim
  · rw [show (show_feedback ⟨s, e, a⟩).statusClass =
        (if pyUpper s = "PASS" then "pass" else "fail") from rfl]
    by_cases h : pyUpper s = "PASS" <;> simp [h]

/-- C2, counterexample: a verdict JSON whose `result` field is the empty
string passes validation — the source model requires presence of the
three fields but never checks non-emptiness, so "with any field empty,
validation fails" is false on the code. -/
theorem claim_C2_counterexample :
    EvaluationResponse.model_validate_json
        (some (Json.obj [("result", Json.str ""),
          ("explanation", Json.str "e"), ("answer", Json.str "a")])) =
      Except.ok ⟨"", "e", "a"⟩ :=
  rfl

/-- C2, amended: validation succeeds exactly when all three fields
(`result`, `explanation`, `answer`) are present as JSON strings — any one
missing (individually or together) is a validation failure and no
default-filled verdict is produced (a produced verdict's fields are the
present input values); emptiness of the values is not checked. -/
theorem claim_C2_amended :
    ∀ fields : List (String × Json),
      ((∃ r, EvaluationResponse.validate (Json.obj fields) = Except.ok r) ↔
        ((∃ s, lookupField fields "result" = some (Json.str s)) ∧
         (∃ s, lookupField fields "explanation" = some (Json.str s)) ∧
         (∃ s, lookupField fields "answer" = some (Json.str s)))) ∧
      (∀ r, EvaluationResponse.validate (Json.obj fields) = Except.ok r →
        lookupField fields "result" = some (Json.str r.result) ∧
        lookupField fields "explanation" = some (Json.str r.explanation) ∧
        lookupField fields "answer" = some (Json.str r.answer)) := by
  intro fields
  constructor
  · constructor
    · rintro ⟨r, hr⟩
      obtain ⟨h1, h2, h3⟩ := (validate_ok_iff fields r).1 hr
      exact ⟨⟨r.result, h1⟩, ⟨r.explanation, h2⟩, ⟨r.answer, h3⟩⟩
    · rintro ⟨⟨s1, h1⟩, ⟨s2, h2⟩, ⟨s3, h3⟩⟩
      exact ⟨⟨s1, s2, s3⟩, (validate_ok_iff fields ⟨s1, s2, s3⟩).2 ⟨h1, h2, h3⟩⟩
  · intro r hr
    exact (validate_ok_iff fields r).1 hr

/-- C2, amended, witness at the spec scenario input. -/
theorem claim_C2_amended_witness :
    lookupField [("result", Json.str "PASS"), ("explanation", Json.str "Correct."),
        ("answer", Json.str "The GIL.")] "result" = some (Json.str "PASS") ∧
    lookupField [("result", Json.str "PASS"), ("explanation", Json.str "Correct."),
        ("answer", Json.str "The GIL.")] "explanation" = some (Json.str "Correct.") ∧
    lookupField [("result", Json.str "PASS"), ("explanation", Json.str "Correct."),
        ("answer", Json.str "The GIL.")] "answer" = some (Json.str "The GIL.") :=
  (claim_C2_amended [("result", Json.str "PASS"), ("explanation", Json.str "Correct."),
    ("answer", Json.str "The GIL.")]).2 ⟨"PASS", "Correct.", "The GIL."⟩ rfl

/-- C8: for every well-formed JSON text — modelled as any parsed JSON
object, extra fields allowed — whose `result`, `explanation` and `answer`
fields are present as non-empty strings, `EvaluationResponse` validation
succeeds, producing exactly the verdict `⟨s, e, a⟩`, and every verdict it
produces has `result`, `explanation` and `answer` equal to the
corresponding input values (round-trip, no alteration and no
default-filling). -/
theorem claim_C8 :
    ∀ (fields : List (String × Json)) (s e a : String),
      lookupField fields "result" = some (Json.str s) →
      lookupField fields "explanation" = some (Json.str e) →
      lookupField fields "answer" = some (Json.str a) →
      s ≠ "" → e ≠ "" → a ≠ "" →
      EvaluationResponse.model_validate_json (some (Json.obj fields)) =
        Except.ok ⟨s, e, a⟩ ∧
      ∀ verdict : EvaluationResponse,
        EvaluationResponse.model_validate_json (some (Json.obj fields)) =
          Except.ok verdict →
        verdict.result = s ∧ verdict.explanation = e ∧ verdict.answer = a := by
  intro fields s e a h1 h2 h3 _ _ _
  have hok : EvaluationResponse.model_validate_json (some (Json.obj fields)) =
      Except.ok ⟨s, e, a⟩ := by
    rw [show EvaluationResponse.model_validate_json (some (Json.obj fields)) =
        EvaluationResponse.validate (Json.obj fields) from rfl, validate_ok_iff]
    exact ⟨h1, h2, h3⟩
  refine ⟨hok, fun verdict hv => ?_⟩
  rw [hok] at hv
  injection hv with hv
  rw [← hv]
  exact ⟨rfl, rfl, rfl⟩

/-- C8, witness at the spec scenario input
`{"result":"PASS","explanation":"Correct.","answer":"The GIL."}`: the
verdict fields equal `PASS` / `Correct.` / `The GIL.` exactly. -/
theorem claim_C8_witness :
    EvaluationResponse.model_validate_json
        (some (Json.obj [("result", Json.str "PASS"),
          ("explanation", Json.str "Correct."), ("answer", Json.str "The GIL.")])) =
      Except.ok ⟨"PASS", "Correct.", "The GIL."⟩ :=
  (claim_C8 [("result", Json.str "PASS"), ("explanation", Json.str "Correct."),
      ("answer", Json.str "The GIL.")] "PASS" "Correct." "The GIL." rfl rfl rfl
    (by decide) (by decide) (by decide)).1

/-- C3, counterexample: a parsed JSON object lacking the `question` field
is NOT treated as a failure — `data.get("question", "Failed to parse
question.")` installs the placeholder as `current_question` and the
normal `show_question` success path runs (interaction area revealed), not
the error path. -/
theorem claim_C3_counterexample :
    generate_question (Except.ok (Json.obj [])) =
      GenOutcome.questionShown (Json.str "Failed to parse question.") ∧
    (generate_question (Except.ok (Json.obj []))).isErrorPath = false :=
  ⟨rfl, rfl⟩

/-- C3, amended: when JSON parsing of the backend text fails, the
orchestration surfaces a display-only error string (`"Error: ..."`) in
place of the question and does not raise further up; but a parsed JSON
object lacking the `question` field is treated as a usable question
whose text is the placeholder `"Failed to parse question."`, shown via
the normal success path, not via the error path. -/
theorem claim_C3_amended :
    (∀ e : String,
      generate_question (Except.error e) = GenOutcome.errorShown ("Error: " ++ e) ∧
      (generate_question (Except.error e)).isErrorPath = true) ∧
    (∀ fields : List (String × Json), lookupField fields "question" = none →
      generate_question (Except.ok (Json.obj fields)) =
        GenOutcome.questionShown (Json.str "Failed to parse question.") ∧
      (generate_question (Except.ok (Json.obj fields))).isErrorPath = false) := by
  constructor
  · intro e
    exact ⟨rfl, rfl⟩
  · intro fields h
    constructor
    · rw [show generate_question (Except.ok (Json.obj fields)) =
          GenOutcome.questionShown
            (match lookupField fields "question" with
              | some v => v
              | none => Json.str "Failed to parse question.") from rfl, h]
    · rw [show generate_question (Except.ok (Json.obj fields)) =
          GenOutcome.questionShown
            (match lookupField fields "question" with
              | some v => v
              | none => Json.str "Failed to parse question.") from rfl]
      rfl

/-- C3, amended, witness: a concrete parse failure takes the error path
and a concrete empty object takes the placeholder-question path. -/
theorem claim_C3_amended_witness :
    generate_question (Except.error "Expecting value") =
      GenOutcome.errorShown "Error: Expecting value" ∧
    generate_question (Except.ok (Json.obj [("answer", Json.str "42")])) =
      GenOutcome.questionShown (Json.str "Failed to parse question.") :=
  ⟨(claim_C3_amended.1 "Expecting value").1,
   (claim_C3_amended.2 [("answer", Json.str "42")] rfl).1⟩

/-- C4: the `STARTING_SERVICE` loop polls once per 1-time-unit interval
(one `time.sleep(1)` then one `ollama.list()` per iteration) for at most
10 attempts.  If the first successful probe is attempt `k + 1 ≤ 10`
(0-indexed `k`), the prober concludes `serviceUp` after exactly `k + 1`
polls and `check_ollama` proceeds to the model check; if all 10 attempts
fail it fails with the manual-start message after exactly 10 polls and
never polls again (the model check is not reached); if launching the
server raised `FileNotFoundError` (executable missing) it fails
immediately with the install message having performed no polling. -/
theorem claim_C4 :
    (∀ (reachable : Nat → Bool) (k : Nat), k < 10 →
        (∀ j, j < k → reachable j = false) → reachable k = true →
        check_ollama_service false true reachable = ⟨ServiceOutcome.serviceUp, k + 1⟩ ∧
        ∀ modelName listResult pullResult,
          check_ollama false true reachable modelName listResult pullResult =
            (model_stage modelName listResult pullResult, k + 1)) ∧
    (∀ reachable : Nat → Bool, (∀ j, j < 10 → reachable j = false) →
        check_ollama_service false true reachable =
          ⟨ServiceOutcome.failed manualStartMsg, 10⟩ ∧
        ∀ modelName listResult pullResult,
          check_ollama false true reachable modelName listResult pullResult =
            (CheckResult.failed manualStartMsg, 10)) ∧
    (∀ reachable : Nat → Bool,
        check_ollama_service false false reachable =
          ⟨ServiceOutcome.failed installMsg, 0⟩ ∧
        ∀ modelName listResult pullResult,
          check_ollama false false reachable modelName listResult pullResult =
            (CheckResult.failed installMsg, 0)) := by
  refine ⟨?_, ?_, ?_⟩
  · intro reachable k hk hlt hr
    have hsvc : check_ollama_service false true reachable =
        ⟨ServiceOutcome.serviceUp, k + 1⟩ := by
      rw [show check_ollama_service false true reachable =
          pollLoop reachable 0 10 from rfl]
      have := pollLoop_first_success reachable k 10 0 hk
        (fun j hj => by simpa using hlt j hj) (by simpa using hr)
      simpa using this
    refine ⟨hsvc, fun modelName listResult pullResult => ?_⟩
    rw [show check_ollama false true reachable modelName listResult pullResult =
        (match (check_ollama_service false true reachable).outcome with
          | ServiceOutcome.failed m =>
              (CheckResult.failed m, (check_ollama_service false true reachable).polls)
          | ServiceOutcome.serviceUp =>
              (model_stage modelName listResult pullResult,
                (check_ollama_service false true reachable).polls)) from rfl, hsvc]
  · intro reachable h
    have hsvc : check_ollama_service false true reachable =
        ⟨ServiceOutcome.failed manualStartMsg, 10⟩ := by
      rw [show check_ollama_service false true reachable =
          pollLoop reachable 0 10 from rfl]
      have := pollLoop_all_fail reachable 10 0 (fun j hj => by simpa using h j hj)
      simpa using this
    refine ⟨hsvc, fun modelName listResult pullResult => ?_⟩
    rw [show check_ollama false true reachable modelName listResult pullResult =
        (match (check_ollama_service false true reachable).outcome with
          | ServiceOutcome.failed m =>
              (CheckResult.failed m, (check_ollama_service false true reachable).polls)
          | ServiceOutcome.serviceUp =>
              (model_stage modelName listResult pullResult,
                (check_ollama_service false true reachable).polls)) from rfl, hsvc]
  · intro reachable
    exact ⟨rfl, fun modelName listResult pullResult => rfl⟩

/-- C4, witness: unreachable for attempts 1-9 and reachable on attempt 10
→ `serviceUp` after 10 polls; unreachable for all 10 → manual-start
failure after 10 polls, model stage not reached; executable missing →
install failure with no polls. -/
theorem claim_C4_witness :
    check_ollama_service false true (fun i => decide (i = 9)) =
      ⟨ServiceOutcome.serviceUp, 10⟩ ∧
    check_ollama false true (fun _ => false) "gemma2:2b" (Except.ok []) (Except.ok ()) =
      (CheckResult.failed manualStartMsg, 10) ∧
    check_ollama_service false false (fun _ => false) =
      ⟨ServiceOutcome.failed installMsg, 0⟩ :=
  ⟨(claim_C4.1 (fun i => decide (i = 9)) 9 (by omega) (by decide) (by decide)).1,
   (claim_C4.2.1 (fun _ => false) (by decide)).2 "gemma2:2b" (Except.ok []) (Except.ok ()),
   (claim_C4.2.2 (fun _ => false)).1⟩

/-- C5: the chat router is pure dispatch — with identity `openai` the
result is exactly the cloud client's raw text on the unchanged
conversation and the local client is never consulted (the result is
independent of it), and symmetrically with identity `ollama`. -/
theorem claim_C5 :
    ∀ (openaiChat ollamaChat : List ChatMessage → Option ResponseFormat → String)
      (messages : List ChatMessage) (response_format : Option ResponseFormat),
      llm_chat Provider.openai openaiChat ollamaChat messages response_format =
        openaiChat messages response_format ∧
      llm_chat Provider.ollama openaiChat ollamaChat messages response_format =
        ollamaChat messages response_format ∧
      (∀ otherLocal, llm_chat Provider.openai openaiChat ollamaChat messages response_format =
        llm_chat Provider.openai openaiChat otherLocal messages response_format) ∧
      (∀ otherCloud, llm_chat Provider.ollama openaiChat ollamaChat messages response_format =
        llm_chat Provider.ollama otherCloud ollamaChat messages response_format) :=
  fun _ _ _ _ => ⟨rfl, rfl, fun _ => rfl, fun _ => rfl⟩

/-- C6: the model-presence check concludes present exactly when the
configured model name occurs as a contiguous substring of at least one
installed name (Python's `in`); when present the pull is skipped (the
stage result is `ready` whatever the pull would do), and otherwise the
stage proceeds to pull, its result being exactly the pull's outcome. -/
theorem claim_C6 :
    ∀ (modelName : String) (installed : List String),
      (model_present modelName installed = true ↔
        ∃ name ∈ installed, ∃ pre post, name.data = pre ++ modelName.data ++ post) ∧
      (model_present modelName installed = true →
        ∀ pullResult, model_stage modelName (Except.ok installed) pullResult =
          CheckResult.ready) ∧
      (model_present modelName installed = false →
        ∀ pullResult, model_stage modelName (Except.ok installed) pullResult =
          pullOutcome pullResult) := by
  intro modelName installed
  refine ⟨?_, ?_, ?_⟩
  · rw [show model_present modelName installed =
        installed.any (fun name => hasSubstr modelName.data name.data) from rfl,
      List.any_eq_true]
    constructor
    · rintro ⟨name, hmem, hsub⟩
      exact ⟨name, hmem, (hasSubstr_iff modelName.data name.data).1 hsub⟩
    · rintro ⟨name, hmem, hocc⟩
      exact ⟨name, hmem, (hasSubstr_iff modelName.data name.data).2 hocc⟩
  · intro hp pullResult
    rw [show model_stage modelName (Except.ok installed) pullResult =
        (if model_present modelName installed then CheckResult.ready
          else pullOutcome pullResult) from by
        cases pullResult <;> rfl, hp]
    rfl
  · intro hp pullResult
    rw [show model_stage modelName (Except.ok installed) pullResult =
        (if model_present modelName installed then CheckResult.ready
          else pullOutcome pullResult) from by
        cases pullResult <;> rfl, hp]
    rfl

/-- C6, witness: a tag-suffixed installed name matches the configured
name by substring (pull skipped even if pulling would fail), and a
non-matching install list proceeds to the pull. -/
theorem claim_C6_witness :
    model_stage "gemma2:2b" (Except.ok ["gemma2:2b-instruct-q4"]) (Except.error "offline") =
      CheckResult.ready ∧
    model_stage "gemma2:2b" (Except.ok ["llama3:8b"]) (Except.ok ()) =
      pullOutcome (Except.ok ()) :=
  ⟨(claim_C6 "gemma2:2b" ["gemma2:2b-instruct-q4"]).2.1 (by decide) (Except.error "offline"),
   (claim_C6 "gemma2:2b" ["llama3:8b"]).2.2 (by decide) (Except.ok ())⟩

/-- C7: constructing the settings with provider `openai` and an empty
`OPENAI_API_KEY` fails with a validation error whose message contains
`"OPENAI_API_KEY must be set"`; with provider `ollama` an empty key is
accepted unchanged. -/
theorem claim_C7 :
    ∀ s : Settings,
      (s.DEFAULT_PROVIDER = Provider.openai → s.OPENAI_API_KEY = "" →
        ∃ pre post, validate_openai_api_key s =
          Except.error (pre ++ ("OPENAI_API_KEY must be set" ++ post))) ∧
      (s.DEFAULT_PROVIDER = Provider.ollama → s.OPENAI_API_KEY = "" →
        validate_openai_api_key s = Except.ok s) := by
  intro s
  constructor
  · intro hp hk
    refine ⟨"", " when DEFAULT_PROVIDER is 'openai'. Set it in your .env file or switch to DEFAULT_PROVIDER='ollama'.", ?_⟩
    rw [show validate_openai_api_key s =
        (if s.DEFAULT_PROVIDER = Provider.openai ∧ s.OPENAI_API_KEY = "" then
          Except.error openaiKeyErrorMsg else Except.ok s) from rfl,
      if_pos ⟨hp, hk⟩]
    rfl
  · intro hp _
    rw [show validate_openai_api_key s =
        (if s.DEFAULT_PROVIDER = Provider.openai ∧ s.OPENAI_API_KEY = "" then
          Except.error openaiKeyErrorMsg else Except.ok s) from rfl,
      if_neg]
    rintro ⟨hpo, _⟩
    rw [hp] at hpo
    cases hpo

/-- C7, witness: the two concrete scenarios from the spec. -/
theorem claim_C7_witness :
    (∃ pre post, validate_openai_api_key ⟨"gemma2:2b", "", "gpt-4.1-mini", Provider.openai⟩ =
      Except.error (pre ++ ("OPENAI_API_KEY must be set" ++ post))) ∧
    validate_openai_api_key ⟨"gemma2:2b", "", "gpt-4.1-mini", Provider.ollama⟩ =
      Except.ok ⟨"gemma2:2b", "", "gpt-4.1-mini", Provider.ollama⟩ :=
  ⟨(claim_C7 ⟨"gemma2:2b", "", "gpt-4.1-mini", Provider.openai⟩).1 rfl rfl,
   (claim_C7 ⟨"gemma2:2b", "", "gpt-4.1-mini", Provider.ollama⟩).2 rfl rfl⟩

/-- C9: with `DEFAULT_PROVIDER = ollama`, `on_mount` sets
`ollama_verified = True` unconditionally (it depends on no check result,
so it holds before any startup check has run or succeeded), and for every
subsequent sequence of session events the flag is still set and a toggle
press never enters the readiness re-check branch
(`verify_and_switch_to_ollama`). -/
theorem claim_C9 :
    (on_mount Provider.ollama).ollama_verified = true ∧
    ∀ events : List SessionEvent,
      (runSession (on_mount Provider.ollama) events).ollama_verified = true ∧
      (action_toggle_provider (runSession (on_mount Provider.ollama) events)).2 ≠
        ToggleAction.ranVerification := by
  have h0 : (on_mount Provider.ollama).ollama_verified = true := by decide
  refine ⟨h0, fun events => ?_⟩
  have hv := runSession_preserves_verified events _ h0
  refine ⟨hv, ?_⟩
  rcases h : runSession (on_mount Provider.ollama) events with ⟨p, v⟩
  rw [h] at hv
  simp only at hv
  cases p <;> simp [action_toggle_provider, hv]

/-- C10: submitting while the answer text is empty or all-whitespace is a
no-op — no evaluation request is dispatched (`none`) and the submit
button, status label, answer box and current question are all left
unchanged. -/
theorem claim_C10 :
    ∀ s : SubmitUI, (∀ c ∈ s.answerText.data, isPyWhitespace c = true) →
      action_submit_answer s = (s, none) := by
  intro s h
  have hstrip : pyStrip s.answerText = "" := by
    rw [show pyStrip s.answerText =
        ⟨((s.answerText.data.dropWhile isPyWhitespace).reverse.dropWhile
          isPyWhitespace).reverse⟩ from rfl]
    have h1 : s.answerText.data.dropWhile isPyWhitespace = [] :=
      List.dropWhile_eq_nil_iff.mpr h
    rw [h1]
    rfl
  cases hb : s.btnSubmitHidden <;>
    simp [action_submit_answer, hb, hstrip]

/-- C10, witness: a whitespace-only answer dispatches nothing and changes
nothing. -/
theorem claim_C10_witness :
    action_submit_answer ⟨false, true, "", "  \t ", "What is the GIL?"⟩ =
      (⟨false, true, "", "  \t ", "What is the GIL?"⟩, none) :=
  claim_C10 ⟨false, true, "", "  \t ", "What is the GIL?"⟩ (by decide)

end CodeRecall
